import Mathlib

/-!
# Verification of the InferaDB authentication test-suite specification

The repository under study is a black-box integration test suite for an
authorization-evaluation service ("Engine").  The service itself is not part
of the repository; its behaviour is fixed by the specification (token
pipeline, certificate cache with single-flight resolution, invalidation
listener) and observed through the tests.  Accordingly, the coordinator,
the caches and the invalidation machinery below are modelled from the
specification, while the test-harness helpers (`generate_jwt`,
`api_base_url`) are translated directly from `src/integration/mod.rs`.
-/

namespace InferaDB

/-- Association-list lookup by string key (explicit, to keep proofs by
structural recursion simple). -/
def assocFind {β : Type} : List (String × β) → String → Option β
  | [], _ => none
  | (k, v) :: rest, key => if k = key then some v else assocFind rest key

/-- Lifecycle state of a vault or an organization (spec §3: active /
suspended / deleted). -/
inductive Lifecycle where
  | active
  | suspended
  | deleted
deriving DecidableEq, Repr

/-- Modelled from the spec: a certificate record at the external authority
(§3 Certificate Entry provenance): public verification key, activation time
and revocation flag. -/
structure CertRecord where
  publicKey : String
  activationTime : Int
  revoked : Bool
deriving DecidableEq, Repr

/-- Modelled from the spec: the vault/organization ownership and lifecycle
record at the external authority (§3 Vault/Org Entry). -/
structure VaultRecord where
  orgId : String
  vaultState : Lifecycle
  orgState : Lifecycle
deriving DecidableEq, Repr

/-- Modelled from the spec: a Certificate Cache entry (§3): key material,
activation time, revocation flag, cache timestamp and time-to-live. -/
structure CertEntry where
  publicKey : String
  activationTime : Int
  revoked : Bool
  cachedAt : Int
  ttl : Int
deriving DecidableEq, Repr

/-- Modelled from the spec: a Vault/Organization Cache entry (§3). -/
structure VaultEntry where
  orgId : String
  vaultState : Lifecycle
  orgState : Lifecycle
  cachedAt : Int
  ttl : Int
deriving DecidableEq, Repr

/-- A cached value: a positive entry, or a short-TTL negative result cached
after an upstream not-found/failure (spec §4.2). -/
inductive CertCacheVal where
  | pos (e : CertEntry)
  | neg (cachedAt ttl : Int)
deriving DecidableEq, Repr

/-- A cached vault value: positive entry or negative result (spec §4.3,
same discipline as the certificate cache). -/
inductive VaultCacheVal where
  | pos (e : VaultEntry)
  | neg (cachedAt ttl : Int)
deriving DecidableEq, Repr

/-- Modelled from the spec: the external authority's ground truth plus the
service's fixed validation parameters.  `certs` is keyed by key identifier,
`vaults` by vault id. -/
structure World where
  certs : List (String × CertRecord)
  vaults : List (String × VaultRecord)
  requiredAudience : String
  clockSkew : Int
  certTtl : Int
  negTtl : Int
  vaultTtl : Int
deriving Repr

/-- Modelled from the spec: the two process-local caches (§9 design notes:
the only mutable shared state). -/
structure CacheState where
  certCache : List (String × CertCacheVal)
  vaultCache : List (String × VaultCacheVal)
deriving DecidableEq, Repr

/-- The empty (cold) cache. -/
def emptyCache : CacheState := ⟨[], []⟩

/-- Token claim set (spec §3): issuer, subject, audience, expiry, issued-at,
unique id, vault id, organization id, scope string, vault role. -/
structure Claims where
  iss : String
  sub : String
  aud : String
  exp : Int
  iat : Int
  jti : String
  vaultId : String
  orgId : String
  scope : String
  vaultRole : String
deriving DecidableEq, Repr

/-- Modelled from the spec: a decoded bearer token.  `wellFormed` abstracts
the structural base64/JSON decode of §4.1 step 1; `kid` is the optional key
identifier of the header; `signedWith` is the abstract identity of the key
that actually produced the signature, so that signature verification
(§4.1 step 4) is `signedWith = resolvedKey.publicKey`. -/
structure Token where
  wellFormed : Bool
  kid : Option String
  signedWith : String
  claims : Claims
deriving DecidableEq, Repr

/-- One request as seen by the Coordinator: the bearer token plus the scope
and minimal vault role the requested operation demands (spec §4.5). -/
structure Request where
  token : Token
  requiredScope : String
  requiredRole : String
deriving DecidableEq, Repr

/-- The rejection taxonomy of spec §7. -/
inductive Rejection where
  | malformedToken
  | missingKeyId
  | invalidSignature
  | expired
  | audienceMismatch
  | unknownOrRevokedKey
  | orgOrVaultNotFound
  | ownershipMismatch
  | tenantSuspendedOrDeleted
  | insufficientScope
deriving DecidableEq, Repr

/-- HTTP status class of a rejection (spec §7): 401 for authentication
failures, 404 for resource-absent, 403 for forbidden. -/
def rejectStatus : Rejection → Nat
  | .malformedToken => 401
  | .missingKeyId => 401
  | .invalidSignature => 401
  | .expired => 401
  | .audienceMismatch => 401
  | .unknownOrRevokedKey => 401
  | .orgOrVaultNotFound => 404
  | .ownershipMismatch => 403
  | .tenantSuspendedOrDeleted => 403
  | .insufficientScope => 403

/-- The Coordinator's decision (spec §4.5): accept, or a tagged rejection. -/
inductive Decision where
  | accept
  | reject (r : Rejection)
deriving DecidableEq, Repr

/-- HTTP status of a decision; an accepted request evaluates and answers in
the 200 class (the tests also allow 404 after successful authentication,
which is an evaluation outcome, not a rejection). -/
def httpStatus : Decision → Nat
  | .accept => 200
  | .reject r => rejectStatus r

/-- Upstream calls the Coordinator can make to the authority (spec §6):
fetch-certificate-by-key-id and fetch-vault-and-organization-state-by-id. -/
inductive UpstreamCall where
  | fetchCert (kid : String)
  | fetchVault (vaultId : String)
deriving DecidableEq, Repr

/-- Is an upstream call a vault/organization resolution call? -/
def isVaultCall : UpstreamCall → Bool
  | .fetchCert _ => false
  | .fetchVault _ => true

/-- A positive certificate entry is within its TTL (spec §3: entries past
TTL are treated as absent). -/
def certFresh (now : Int) (e : CertEntry) : Bool :=
  decide (now < e.cachedAt + e.ttl)

/-- A certificate entry is usable: not revoked, and activated (spec §3
invariant: usable only if `now >= activation_time` and `revoked = false`). -/
def certUsable (now : Int) (e : CertEntry) : Bool :=
  !e.revoked && decide (e.activationTime ≤ now)

/-- Modelled from the spec: the single upstream certificate fetch (§4.2).
On authority hit, a positive entry is cached and returned subject to the
usability invariant; on authority miss, a short-TTL negative result is
cached and `NotFound` is returned. -/
def fetchCertUpstream (w : World) (now : Int) (cs : CacheState) (kid : String) :
    Option CertEntry × List UpstreamCall × CacheState :=
  match assocFind w.certs kid with
  | some r =>
    let e : CertEntry :=
      ⟨r.publicKey, r.activationTime, r.revoked, now, w.certTtl⟩
    let cs' : CacheState := ⟨(kid, .pos e) :: cs.certCache, cs.vaultCache⟩
    if certUsable now e then (some e, [.fetchCert kid], cs')
    else (none, [.fetchCert kid], cs')
  | none =>
    (none, [.fetchCert kid], ⟨(kid, .neg now w.negTtl) :: cs.certCache, cs.vaultCache⟩)

/-- Modelled from the spec: Certificate Cache resolution (§4.2).  A live
(fresh, usable) hit is served locally; a fresh revoked or not-yet-active
entry fails locally; a miss or stale entry goes upstream exactly once. -/
def resolveCert (w : World) (now : Int) (cs : CacheState) (kid : String) :
    Option CertEntry × List UpstreamCall × CacheState :=
  match assocFind cs.certCache kid with
  | some (.pos e) =>
    if certFresh now e then
      if certUsable now e then (some e, [], cs) else (none, [], cs)
    else fetchCertUpstream w now cs kid
  | some (.neg t ttl) =>
    if decide (now < t + ttl) then (none, [], cs)
    else fetchCertUpstream w now cs kid
  | none => fetchCertUpstream w now cs kid

/-- A vault cache entry is within its TTL. -/
def vaultFresh (now : Int) (e : VaultEntry) : Bool :=
  decide (now < e.cachedAt + e.ttl)

/-- Modelled from the spec: the single upstream vault/organization fetch
(§4.3), with the same negative-caching discipline as §4.2. -/
def fetchVaultUpstream (w : World) (now : Int) (cs : CacheState) (vaultId : String) :
    Option VaultEntry × List UpstreamCall × CacheState :=
  match assocFind w.vaults vaultId with
  | some r =>
    let e : VaultEntry := ⟨r.orgId, r.vaultState, r.orgState, now, w.vaultTtl⟩
    (some e, [.fetchVault vaultId], ⟨cs.certCache, (vaultId, .pos e) :: cs.vaultCache⟩)
  | none =>
    (none, [.fetchVault vaultId], ⟨cs.certCache, (vaultId, .neg now w.negTtl) :: cs.vaultCache⟩)

/-- Modelled from the spec: Vault/Organization Cache resolution (§4.3);
lifecycle and ownership checks are performed by the Coordinator on the
returned entry. -/
def resolveVault (w : World) (now : Int) (cs : CacheState) (vaultId : String) :
    Option VaultEntry × List UpstreamCall × CacheState :=
  match assocFind cs.vaultCache vaultId with
  | some (.pos e) =>
    if vaultFresh now e then (some e, [], cs)
    else fetchVaultUpstream w now cs vaultId
  | some (.neg t ttl) =>
    if decide (now < t + ttl) then (none, [], cs)
    else fetchVaultUpstream w now cs vaultId
  | none => fetchVaultUpstream w now cs vaultId

/-- Split a character stream at spaces, accumulating the current word in
reverse (explicit structural recursion, mirroring splitting a
space-separated scope string). -/
def splitScopes : List Char → List Char → List String
  | [], acc => [String.mk acc.reverse]
  | c :: rest, acc =>
    if c = ' ' then String.mk acc.reverse :: splitScopes rest []
    else splitScopes rest (c :: acc)

/-- The space-separated scope string contains the required scope
(spec §4.5). -/
def hasScope (scope required : String) : Bool :=
  (splitScopes scope.data []).contains required

/-- Vault-role ordering read < write < manage < admin (spec §4.5). -/
def roleRank (r : String) : Nat :=
  if r = "admin" then 3
  else if r = "manage" then 2
  else if r = "write" then 1
  else 0

/-- The token's role is at least as permissive as the required role. -/
def roleSufficient (held required : String) : Bool :=
  decide (roleRank required ≤ roleRank held)

/-- Modelled from the spec: the Authorization Coordinator pipeline
(§4.1 / §4.5): decode → key id → certificate resolution → signature →
expiry → audience → vault/org resolution → ownership → lifecycle →
scope/role → accept.  Structural failures short-circuit before any
upstream call; the emitted upstream-call trace and the updated caches are
returned with the decision. -/
def authorize (w : World) (now : Int) (cs : CacheState) (req : Request) :
    Decision × List UpstreamCall × CacheState :=
  if req.token.wellFormed = false then (.reject .malformedToken, [], cs)
  else
    match req.token.kid with
    | none => (.reject .missingKeyId, [], cs)
    | some kid =>
      match resolveCert w now cs kid with
      | (none, calls, cs1) => (.reject .unknownOrRevokedKey, calls, cs1)
      | (some entry, calls, cs1) =>
        if req.token.signedWith ≠ entry.publicKey then
          (.reject .invalidSignature, calls, cs1)
        else if req.token.claims.exp + w.clockSkew < now then
          (.reject .expired, calls, cs1)
        else if req.token.claims.aud ≠ w.requiredAudience then
          (.reject .audienceMismatch, calls, cs1)
        else
          match resolveVault w now cs1 req.token.claims.vaultId with
          | (none, vcalls, cs2) =>
            (.reject .orgOrVaultNotFound, calls ++ vcalls, cs2)
          | (some ve, vcalls, cs2) =>
            if ve.orgId ≠ req.token.claims.orgId then
              (.reject .ownershipMismatch, calls ++ vcalls, cs2)
            else if ve.vaultState ≠ .active ∨ ve.orgState ≠ .active then
              (.reject .tenantSuspendedOrDeleted, calls ++ vcalls, cs2)
            else if ¬(hasScope req.token.claims.scope req.requiredScope = true
                      ∧ roleSufficient req.token.claims.vaultRole req.requiredRole = true) then
              (.reject .insufficientScope, calls ++ vcalls, cs2)
            else (.accept, calls ++ vcalls, cs2)

/-- Update the value stored under a key of an association list, leaving
other keys untouched. -/
def updateAssoc {β : Type} (f : β → β) : List (String × β) → String → List (String × β)
  | [], _ => []
  | (k, v) :: rest, key =>
    if k = key then (k, f v) :: updateAssoc f rest key
    else (k, v) :: updateAssoc f rest key

/-- Modelled from the spec: the revocation event applied at the authority
(§4.2): the certificate record for the key id is marked revoked. -/
def revokeCertAuthority (w : World) (kid : String) : World :=
  { w with certs := updateAssoc (fun r => { r with revoked := true }) w.certs kid }

/-- Mark a cached certificate value revoked (negative results unchanged). -/
def markValRevoked : CertCacheVal → CertCacheVal
  | .pos e => .pos { e with revoked := true }
  | .neg t ttl => .neg t ttl

/-- Modelled from the spec: the Invalidation Listener action for a
`certificate revoked` event (§4.4): the Certificate Cache entry is marked
revoked immediately, regardless of TTL. -/
def applyRevocation (cs : CacheState) (kid : String) : CacheState :=
  ⟨updateAssoc markValRevoked cs.certCache kid, cs.vaultCache⟩

/-- Modelled from the spec: the Certificate Cache as it stands at time `t`
after a revocation event at time `tr` (§4.4).  When the invalidation stream
is connected the listener applies the event with latency `lat`; on
disconnect entries are not proactively invalidated and the TTL is the
safety net. -/
def cacheStateAt (connected : Bool) (tr lat : Int) (cs : CacheState)
    (kid : String) (t : Int) : CacheState :=
  if connected = true ∧ tr + lat ≤ t then applyRevocation cs kid else cs

/-- Modelled from the spec: certificate rotation at the authority (§4.2):
a new certificate record with its own key id and its own (possibly future)
activation time is added; the old record is not mutated. -/
def rotateCert (w : World) (newKid newKey : String) (activation : Int) : World :=
  { w with certs := (newKid, ⟨newKey, activation, false⟩) :: w.certs }

/-- Modelled from the spec: the per-key single-flight registry for one
cache key (§9 design notes): whether an in-flight resolution exists, how
many callers await its result, and how many upstream fetches have been
issued. -/
structure FlightState where
  pendingOwner : Bool
  joiners : Nat
  fetches : Nat
deriving DecidableEq, Repr

/-- The idle single-flight state for a key. -/
def flightInit : FlightState := ⟨false, 0, 0⟩

/-- Modelled from the spec: one concurrent caller arrives on a cache miss
(§4.2 / §9): the first caller creates the pending in-flight resolution and
becomes its owner; every later caller joins the same pending resolution
instead of issuing its own upstream call. -/
def callerArrives (s : FlightState) : FlightState :=
  if s.pendingOwner then { s with joiners := s.joiners + 1 }
  else ⟨true, s.joiners + 1, s.fetches⟩

/-- `k` concurrent callers arrive during the same miss window. -/
def arriveAll : Nat → FlightState → FlightState
  | 0, s => s
  | n + 1, s => arriveAll n (callerArrives s)

/-- Modelled from the spec: the owner of the pending resolution issues the
single upstream fetch and resolves the shared result exactly once (§4.2);
every registered caller receives that same result, and the in-flight
marker is removed. -/
def resolveFlight (w : World) (now : Int) (kid : String) (s : FlightState) :
    FlightState × List (Option CertEntry) :=
  if s.pendingOwner then
    (⟨false, 0, s.fetches + 1⟩,
     List.replicate s.joiners (fetchCertUpstream w now emptyCache kid).1)
  else (s, [])

/-! ## Test-harness helpers translated from `src/integration/mod.rs` -/

/-- The claim set produced by the test harness for client JWTs
(`ClientClaims` in `src/integration/mod.rs`). -/
structure ClientClaims where
  iss : String
  sub : String
  aud : String
  exp : Int
  iat : Int
  jti : String
  vault_id : String
  org_id : String
  scope : String
  vault_role : String
deriving DecidableEq, Repr

/-- `REQUIRED_AUDIENCE` from `src/integration/mod.rs`. -/
def REQUIRED_AUDIENCE : String := "https://api.inferadb.com"

/-- The default read-scope string used by `TestFixture::generate_jwt` when
the scope list is empty. -/
def defaultReadScopes : String :=
  "inferadb.check inferadb.read inferadb.expand inferadb.list inferadb.list-relationships inferadb.list-subjects inferadb.list-resources"

/-- The fields of `TestFixture` that `generate_jwt` reads. -/
structure TestFixture where
  apiBaseUrl : String
  clientId : Int
  vaultId : Int
  orgId : Int
  certKid : String
deriving DecidableEq, Repr

/-- The `vault_role` derivation of `TestFixture::generate_jwt`
(`src/integration/mod.rs` lines 553-562). -/
def vaultRoleForScopes (scopes : List String) : String :=
  if scopes.contains "inferadb.admin" then "admin"
  else if scopes.contains "inferadb.vault.manage" then "manage"
  else if scopes.contains "inferadb.write" then "write"
  else "read"

/-- The `scope` string construction of `TestFixture::generate_jwt`
(`src/integration/mod.rs` lines 564-570). -/
def scopeStringFor (scopes : List String) : String :=
  if scopes.isEmpty then defaultReadScopes
  else String.intercalate " " scopes

/-- The claim set built by `TestFixture::generate_jwt`
(`src/integration/mod.rs` lines 572-583); `now` and `jti` stand for the
call-time clock reading and the random UUID. -/
def generateJwtClaims (fx : TestFixture) (now : Int) (jti : String)
    (vaultId : Option Int) (scopes : List String) : ClientClaims :=
  { iss := fx.apiBaseUrl
  , sub := "client:" ++ toString fx.clientId
  , aud := REQUIRED_AUDIENCE
  , exp := now + 5 * 60
  , iat := now
  , jti := jti
  , vault_id := toString (vaultId.getD fx.vaultId)
  , org_id := toString fx.orgId
  , scope := scopeStringFor scopes
  , vault_role := vaultRoleForScopes scopes }

/-- The URL computed by the initializer closure of `api_base_url`
(`src/integration/mod.rs` lines 120-139): the `INFERADB_API_URL`
environment variable wins; otherwise successful Tailscale discovery of the
tailnet yields `https://inferadb-api.<tailnet>`; otherwise the literal
localhost fallback. -/
def computeApiBaseUrl (envUrl : Option String) (tailnet : Option String) : String :=
  match envUrl with
  | some url => url
  | none =>
    match tailnet with
    | some tn => "https://inferadb-api." ++ tn
    | none => "http://localhost:9090"

/-- One call to `api_base_url`: the `OnceLock` cell either already holds
the value, which is returned unchanged, or is initialized exactly once
from the current environment and discovery outcome
(`src/integration/mod.rs` lines 120-139). -/
def apiBaseUrlCall (cell : Option String) (envUrl tailnet : Option String) :
    String × Option String :=
  match cell with
  | some v => (v, some v)
  | none =>
    let v := computeApiBaseUrl envUrl tailnet
    (v, some v)

/-! ## Helper lemmas -/

/-- A fresh, usable cache hit resolves locally with no upstream call. -/
lemma resolveCert_hit (w : World) (now : Int) (cs : CacheState) (kid : String)
    (e : CertEntry) (hfind : assocFind cs.certCache kid = some (.pos e))
    (hf : certFresh now e = true) (hu : certUsable now e = true) :
    resolveCert w now cs kid = (some e, [], cs) := by
  simp [resolveCert, hfind, hf, hu]

/-- A fresh vault cache hit resolves locally with no upstream call. -/
lemma resolveVault_hit (w : World) (now : Int) (cs : CacheState) (vid : String)
    (e : VaultEntry) (hfind : assocFind cs.vaultCache vid = some (.pos e))
    (hf : vaultFresh now e = true) :
    resolveVault w now cs vid = (some e, [], cs) := by
  simp [resolveVault, hfind, hf]

/-- The Coordinator accepts when every stage of the pipeline passes. -/
lemma authorize_eq_accept (w : World) (now : Int) (cs : CacheState) (req : Request)
    (kid : String) (e : CertEntry) (calls : List UpstreamCall) (cs1 : CacheState)
    (ve : VaultEntry) (vcalls : List UpstreamCall) (cs2 : CacheState)
    (hwf : req.token.wellFormed = true)
    (hkid : req.token.kid = some kid)
    (hres : resolveCert w now cs kid = (some e, calls, cs1))
    (hsig : req.token.signedWith = e.publicKey)
    (hexp : ¬ req.token.claims.exp + w.clockSkew < now)
    (haud : req.token.claims.aud = w.requiredAudience)
    (hv : resolveVault w now cs1 req.token.claims.vaultId = (some ve, vcalls, cs2))
    (horg : ve.orgId = req.token.claims.orgId)
    (hvs : ve.vaultState = .active)
    (hos : ve.orgState = .active)
    (hsc : hasScope req.token.claims.scope req.requiredScope = true)
    (hrole : roleSufficient req.token.claims.vaultRole req.requiredRole = true) :
    authorize w now cs req = (.accept, calls ++ vcalls, cs2) := by
  simp [authorize, hwf, hkid, hres, hsig, hexp, haud, hv, horg, hvs, hos, hsc, hrole]

/-- Lookup after updating the value stored under the same key. -/
lemma assocFind_updateAssoc {β : Type} (f : β → β) (l : List (String × β)) (key : String) :
    assocFind (updateAssoc f l key) key = (assocFind l key).map f := by
  induction l with
  | nil => rfl
  | cons hd tl ih =>
    obtain ⟨a, b⟩ := hd
    by_cases h : a = key
    · simp only [updateAssoc, assocFind, if_pos h]
      rfl
    · simp only [updateAssoc, assocFind, if_neg h]
      exact ih

/-- After the authority revokes a key, the upstream fetch for that key
never yields a usable entry. -/
lemma fetchCertUpstream_revoked (w : World) (now : Int) (cs : CacheState) (k : String) :
    (fetchCertUpstream (revokeCertAuthority w k) now cs k).1 = none := by
  have h : assocFind (revokeCertAuthority w k).certs k
      = (assocFind w.certs k).map (fun r => { r with revoked := true }) := by
    show assocFind (updateAssoc (fun r => { r with revoked := true }) w.certs k) k = _
    exact assocFind_updateAssoc (fun r => { r with revoked := true }) w.certs k
  cases hfind : assocFind w.certs k with
  | none => simp [fetchCertUpstream, h, hfind]
  | some r => simp [fetchCertUpstream, h, hfind, certUsable]

/-- With the listener's revocation applied to the cache and the authority
record revoked, certificate resolution fails regardless of TTL state. -/
lemma resolveCert_after_revoke_apply (w : World) (now : Int) (cs : CacheState)
    (k : String) (e : CertEntry)
    (hfind : assocFind cs.certCache k = some (.pos e)) :
    (resolveCert (revokeCertAuthority w k) now (applyRevocation cs k) k).1 = none := by
  have hfind' : assocFind (applyRevocation cs k).certCache k
      = some (.pos { e with revoked := true }) := by
    show assocFind (updateAssoc markValRevoked cs.certCache k) k = _
    rw [assocFind_updateAssoc markValRevoked cs.certCache k, hfind]
    rfl
  by_cases hf : certFresh now { e with revoked := true } = true
  · simp [resolveCert, hfind', hf, certUsable]
  · simp [resolveCert, hfind', hf, fetchCertUpstream_revoked]

/-- A stale cached entry forces a refetch, which fails after revocation. -/
lemma resolveCert_stale_after_revoke (w : World) (now : Int) (cs : CacheState)
    (k : String) (e : CertEntry)
    (hfind : assocFind cs.certCache k = some (.pos e))
    (hstale : ¬ certFresh now e = true) :
    (resolveCert (revokeCertAuthority w k) now cs k).1 = none := by
  simp [resolveCert, hfind, hstale, fetchCertUpstream_revoked]

/-- When certificate resolution yields no usable key, the Coordinator
rejects with `UnknownOrRevokedKey`. -/
lemma authorize_reject_unknown (w : World) (now : Int) (cs : CacheState)
    (req : Request) (k : String)
    (hwf : req.token.wellFormed = true) (hkid : req.token.kid = some k)
    (hres : (resolveCert w now cs k).1 = none) :
    (authorize w now cs req).1 = .reject .unknownOrRevokedKey := by
  rcases hrc : resolveCert w now cs k with ⟨o, calls, cs1⟩
  rw [hrc] at hres
  simp at hres
  subst hres
  simp [authorize, hwf, hkid, hrc]

/-- Resolution from a cold cache against an authority record. -/
lemma resolveCert_cold (w : World) (now : Int) (kid : String) (r : CertRecord)
    (hr : assocFind w.certs kid = some r)
    (hrev : r.revoked = false) (hact : r.activationTime ≤ now) :
    resolveCert w now emptyCache kid
      = (some ⟨r.publicKey, r.activationTime, r.revoked, now, w.certTtl⟩,
         [.fetchCert kid],
         ⟨[(kid, .pos ⟨r.publicKey, r.activationTime, r.revoked, now, w.certTtl⟩)], []⟩) := by
  simp [resolveCert, emptyCache, assocFind, fetchCertUpstream, hr, certUsable, hrev, hact]

/-- The full Coordinator pipeline accepts from a cold cache when the
authority holds a usable certificate and an active, owned vault. -/
lemma authorize_accept_cold (w : World) (now : Int) (req : Request) (kid : String)
    (r : CertRecord) (vrec : VaultRecord)
    (hwf : req.token.wellFormed = true)
    (hkid : req.token.kid = some kid)
    (hr : assocFind w.certs kid = some r)
    (hrev : r.revoked = false) (hact : r.activationTime ≤ now)
    (hsig : req.token.signedWith = r.publicKey)
    (hexp : ¬ req.token.claims.exp + w.clockSkew < now)
    (haud : req.token.claims.aud = w.requiredAudience)
    (hv : assocFind w.vaults req.token.claims.vaultId = some vrec)
    (horg : vrec.orgId = req.token.claims.orgId)
    (hvs : vrec.vaultState = .active)
    (hos : vrec.orgState = .active)
    (hsc : hasScope req.token.claims.scope req.requiredScope = true)
    (hrole : roleSufficient req.token.claims.vaultRole req.requiredRole = true) :
    (authorize w now emptyCache req).1 = .accept := by
  have hres := resolveCert_cold w now kid r hr hrev hact
  have hvres : resolveVault w now
      ⟨[(kid, .pos ⟨r.publicKey, r.activationTime, r.revoked, now, w.certTtl⟩)], []⟩
      req.token.claims.vaultId
      = (some ⟨vrec.orgId, vrec.vaultState, vrec.orgState, now, w.vaultTtl⟩,
         [.fetchVault req.token.claims.vaultId],
         ⟨[(kid, .pos ⟨r.publicKey, r.activationTime, r.revoked, now, w.certTtl⟩)],
          [(req.token.claims.vaultId,
            .pos ⟨vrec.orgId, vrec.vaultState, vrec.orgState, now, w.vaultTtl⟩)]⟩) := by
    simp [resolveVault, assocFind, fetchVaultUpstream, hv]
  have h := authorize_eq_accept w now emptyCache req kid
    ⟨r.publicKey, r.activationTime, r.revoked, now, w.certTtl⟩
    [.fetchCert kid]
    ⟨[(kid, .pos ⟨r.publicKey, r.activationTime, r.revoked, now, w.certTtl⟩)], []⟩
    ⟨vrec.orgId, vrec.vaultState, vrec.orgState, now, w.vaultTtl⟩
    [.fetchVault req.token.claims.vaultId]
    ⟨[(kid, .pos ⟨r.publicKey, r.activationTime, r.revoked, now, w.certTtl⟩)],
     [(req.token.claims.vaultId,
       .pos ⟨vrec.orgId, vrec.vaultState, vrec.orgState, now, w.vaultTtl⟩)]⟩
    hwf hkid hres hsig hexp haud hvres horg hvs hos hsc hrole
  rw [h]

/-! ## Claim theorems -/

/-- C7: every request bearing a valid, unexpired, correctly-signed token
naming an active vault and organization owned by the claimed organization
is accepted by the Coordinator (HTTP 200 class; the tests also treat a
post-authentication 404 as acceptance). -/
theorem valid_token_accepted (w : World) (now : Int) (cs : CacheState)
    (req : Request) (kid : String) (e : CertEntry) (ve : VaultEntry)
    (hwf : req.token.wellFormed = true)
    (hkid : req.token.kid = some kid)
    (hfind : assocFind cs.certCache kid = some (.pos e))
    (hf : certFresh now e = true) (hu : certUsable now e = true)
    (hsig : req.token.signedWith = e.publicKey)
    (hexp : ¬ req.token.claims.exp + w.clockSkew < now)
    (haud : req.token.claims.aud = w.requiredAudience)
    (hvfind : assocFind cs.vaultCache req.token.claims.vaultId = some (.pos ve))
    (hvf : vaultFresh now ve = true)
    (horg : ve.orgId = req.token.claims.orgId)
    (hvs : ve.vaultState = .active)
    (hos : ve.orgState = .active)
    (hsc : hasScope req.token.claims.scope req.requiredScope = true)
    (hrole : roleSufficient req.token.claims.vaultRole req.requiredRole = true) :
    (authorize w now cs req).1 = .accept
    ∧ httpStatus (authorize w now cs req).1 = 200 := by
  have h := authorize_eq_accept w now cs req kid e [] cs ve [] cs
    hwf hkid (resolveCert_hit w now cs kid e hfind hf hu) hsig hexp haud
    (resolveVault_hit w now cs req.token.claims.vaultId ve hvfind hvf) horg hvs hos hsc hrole
  rw [h]
  exact ⟨rfl, rfl⟩

/-- C9: `TestFixture::generate_jwt` derives `vault_role` deterministically
from the scope list (admin, else manage, else write, else read), and an
empty scope list yields the fixed non-empty default read-scope string. -/
theorem generate_jwt_role_and_scope (fx : TestFixture) (now : Int) (jti : String)
    (vid : Option Int) (scopes : List String) :
    (scopes.contains "inferadb.admin" = true →
      (generateJwtClaims fx now jti vid scopes).vault_role = "admin")
    ∧ (scopes.contains "inferadb.admin" = false →
       scopes.contains "inferadb.vault.manage" = true →
      (generateJwtClaims fx now jti vid scopes).vault_role = "manage")
    ∧ (scopes.contains "inferadb.admin" = false →
       scopes.contains "inferadb.vault.manage" = false →
       scopes.contains "inferadb.write" = true →
      (generateJwtClaims fx now jti vid scopes).vault_role = "write")
    ∧ (scopes.contains "inferadb.admin" = false →
       scopes.contains "inferadb.vault.manage" = false →
       scopes.contains "inferadb.write" = false →
      (generateJwtClaims fx now jti vid scopes).vault_role = "read")
    ∧ (scopes = [] →
      (generateJwtClaims fx now jti vid scopes).scope = defaultReadScopes
      ∧ (generateJwtClaims fx now jti vid scopes).scope ≠ "") := by
  refine ⟨?_, ?_, ?_, ?_, ?_⟩
  · intro h
    have h' : "inferadb.admin" ∈ scopes := by simpa using h
    simp [generateJwtClaims, vaultRoleForScopes, h']
  · intro h1 h2
    have h1' : "inferadb.admin" ∉ scopes := by simpa using h1
    have h2' : "inferadb.vault.manage" ∈ scopes := by simpa using h2
    simp [generateJwtClaims, vaultRoleForScopes, h1', h2']
  · intro h1 h2 h3
    have h1' : "inferadb.admin" ∉ scopes := by simpa using h1
    have h2' : "inferadb.vault.manage" ∉ scopes := by simpa using h2
    have h3' : "inferadb.write" ∈ scopes := by simpa using h3
    simp [generateJwtClaims, vaultRoleForScopes, h1', h2', h3']
  · intro h1 h2 h3
    have h1' : "inferadb.admin" ∉ scopes := by simpa using h1
    have h2' : "inferadb.vault.manage" ∉ scopes := by simpa using h2
    have h3' : "inferadb.write" ∉ scopes := by simpa using h3
    simp [generateJwtClaims, vaultRoleForScopes, h1', h2', h3']
  · intro h
    subst h
    refine ⟨rfl, ?_⟩
    simp [generateJwtClaims, scopeStringFor, defaultReadScopes]

/-- Witness for C9 at a concrete scope list. -/
theorem generate_jwt_role_and_scope_witness :
    (generateJwtClaims ⟨"https://x", 1, 2, 3, "k"⟩ 0 "j" none ["inferadb.write"]).vault_role
      = "write" :=
  (generate_jwt_role_and_scope ⟨"https://x", 1, 2, 3, "k"⟩ 0 "j" none
    ["inferadb.write"]).2.2.1 (by decide) (by decide) (by decide)

/-- C10: `api_base_url` resolves with the fixed precedence (environment
variable, then Tailscale discovery, then the localhost fallback) and the
value is computed at most once: a later call, even under a changed
environment, returns the first call's string. -/
theorem api_base_url_precedence_and_once (env1 t1 env2 t2 : Option String) :
    (∀ url, env1 = some url → (apiBaseUrlCall none env1 t1).1 = url)
    ∧ (∀ tn, env1 = none → t1 = some tn →
        (apiBaseUrlCall none env1 t1).1 = "https://inferadb-api." ++ tn)
    ∧ (env1 = none → t1 = none →
        (apiBaseUrlCall none env1 t1).1 = "http://localhost:9090")
    ∧ (apiBaseUrlCall (apiBaseUrlCall none env1 t1).2 env2 t2).1
        = (apiBaseUrlCall none env1 t1).1 := by
  refine ⟨?_, ?_, ?_, ?_⟩
  · intro url h
    subst h
    rfl
  · intro tn h1 h2
    subst h1; subst h2
    rfl
  · intro h1 h2
    subst h1; subst h2
    rfl
  · cases env1 <;> cases t1 <;> rfl

/-- Witness for C10 at a concrete environment. -/
theorem api_base_url_precedence_and_once_witness :
    (apiBaseUrlCall none (some "http://ci:1") none).1 = "http://ci:1" :=
  (api_base_url_precedence_and_once (some "http://ci:1") none none none).1
    "http://ci:1" rfl

/-! ## Concrete scenario used by the witnesses -/

/-- A live, activated certificate cache entry. -/
def certA : CertEntry := ⟨"pubA", 0, false, 0, 1000⟩

/-- An active vault owned by `org1`. -/
def vaultA : VaultEntry := ⟨"org1", .active, .active, 0, 1000⟩

/-- A small authority world with one certificate and one vault. -/
def worldA : World :=
  ⟨[("k1", ⟨"pubA", 0, false⟩)], [("v1", ⟨"org1", .active, .active⟩)],
   "https://api.inferadb.com", 5, 1000, 60, 1000⟩

/-- Warm caches holding `certA` and `vaultA`. -/
def cacheA : CacheState := ⟨[("k1", .pos certA)], [("v1", .pos vaultA)]⟩

/-- A well-formed claim set naming `v1` under `org1`. -/
def claimsGood : Claims :=
  ⟨"https://x", "client:1", "https://api.inferadb.com", 900, 0, "j", "v1", "org1",
   "inferadb.check inferadb.read", "read"⟩

/-- A valid token signed with the cached key. -/
def tokenGood : Token := ⟨true, some "k1", "pubA", claimsGood⟩

/-- A valid request asking for a read-scope evaluation. -/
def reqGood : Request := ⟨tokenGood, "inferadb.check", "read"⟩

/-- Witness for C7 at the concrete scenario. -/
theorem valid_token_accepted_witness :
    (authorize worldA 100 cacheA reqGood).1 = .accept
    ∧ httpStatus (authorize worldA 100 cacheA reqGood).1 = 200 :=
  valid_token_accepted worldA 100 cacheA reqGood "k1" certA vaultA
    (by decide) (by decide) (by decide) (by decide) (by decide) (by decide)
    (by decide) (by decide) (by decide) (by decide) (by decide) (by decide)
    (by decide) (by decide) (by decide)

/-- C2: a token naming a vault that exists but is owned by a different
organization than the token's `org_id` claim is rejected with
`OwnershipMismatch` (HTTP 403), never with `OrgOrVaultNotFound` (404). -/
theorem vault_ownership_mismatch_forbidden (w : World) (now : Int) (cs : CacheState)
    (req : Request) (kid : String) (e : CertEntry) (ve : VaultEntry)
    (hwf : req.token.wellFormed = true)
    (hkid : req.token.kid = some kid)
    (hfind : assocFind cs.certCache kid = some (.pos e))
    (hf : certFresh now e = true) (hu : certUsable now e = true)
    (hsig : req.token.signedWith = e.publicKey)
    (hexp : ¬ req.token.claims.exp + w.clockSkew < now)
    (haud : req.token.claims.aud = w.requiredAudience)
    (hvfind : assocFind cs.vaultCache req.token.claims.vaultId = some (.pos ve))
    (hvf : vaultFresh now ve = true)
    (horg : ve.orgId ≠ req.token.claims.orgId) :
    (authorize w now cs req).1 = .reject .ownershipMismatch
    ∧ httpStatus (authorize w now cs req).1 = 403
    ∧ (authorize w now cs req).1 ≠ .reject .orgOrVaultNotFound := by
  have hres := resolveCert_hit w now cs kid e hfind hf hu
  have hv := resolveVault_hit w now cs req.token.claims.vaultId ve hvfind hvf
  have hauth : authorize w now cs req = (.reject .ownershipMismatch, [], cs) := by
    simp [authorize, hwf, hkid, hres, hsig, hexp, haud, hv, horg]
  rw [hauth]
  exact ⟨rfl, rfl, by simp⟩

/-- A token whose claims name `org2` for the vault `v1` owned by `org1`. -/
def claimsWrongOrg : Claims :=
  ⟨"https://x", "client:1", "https://api.inferadb.com", 900, 0, "j", "v1", "org2",
   "inferadb.check inferadb.read", "read"⟩

/-- A request with a cross-organization vault claim. -/
def reqWrongOrg : Request := ⟨⟨true, some "k1", "pubA", claimsWrongOrg⟩, "inferadb.check", "read"⟩

/-- Witness for C2 at the concrete scenario. -/
theorem vault_ownership_mismatch_forbidden_witness :
    (authorize worldA 100 cacheA reqWrongOrg).1 = .reject .ownershipMismatch
    ∧ httpStatus (authorize worldA 100 cacheA reqWrongOrg).1 = 403
    ∧ (authorize worldA 100 cacheA reqWrongOrg).1 ≠ .reject .orgOrVaultNotFound :=
  vault_ownership_mismatch_forbidden worldA 100 cacheA reqWrongOrg "k1" certA vaultA
    (by decide) (by decide) (by decide) (by decide) (by decide) (by decide)
    (by decide) (by decide) (by decide) (by decide) (by decide)

/-- C4: a token whose signature does not verify against the key resolved
from its key identifier is rejected with `InvalidSignature` (HTTP 401),
independent of the token's claim content (`req.token.claims` is
unconstrained). -/
theorem invalid_signature_rejected (w : World) (now : Int) (cs : CacheState)
    (req : Request) (kid : String) (e : CertEntry)
    (hwf : req.token.wellFormed = true)
    (hkid : req.token.kid = some kid)
    (hfind : assocFind cs.certCache kid = some (.pos e))
    (hf : certFresh now e = true) (hu : certUsable now e = true)
    (hsig : req.token.signedWith ≠ e.publicKey) :
    (authorize w now cs req).1 = .reject .invalidSignature
    ∧ httpStatus (authorize w now cs req).1 = 401 := by
  have hres := resolveCert_hit w now cs kid e hfind hf hu
  have hauth : authorize w now cs req = (.reject .invalidSignature, [], cs) := by
    simp [authorize, hwf, hkid, hres, hsig]
  rw [hauth]
  exact ⟨rfl, rfl⟩

/-- A request whose token was signed with a foreign key. -/
def reqBadSig : Request := ⟨⟨true, some "k1", "pubX", claimsGood⟩, "inferadb.check", "read"⟩

/-- Witness for C4 at the concrete scenario. -/
theorem invalid_signature_rejected_witness :
    (authorize worldA 100 cacheA reqBadSig).1 = .reject .invalidSignature
    ∧ httpStatus (authorize worldA 100 cacheA reqBadSig).1 = 401 :=
  invalid_signature_rejected worldA 100 cacheA reqBadSig "k1" certA
    (by decide) (by decide) (by decide) (by decide) (by decide) (by decide)

/-- C5: a token whose `exp` is in the past beyond the clock-skew tolerance
is rejected with `Expired` (HTTP 401), even when its signature is valid and
the named vault/organization tenancy is valid. -/
theorem expired_token_rejected (w : World) (now : Int) (cs : CacheState)
    (req : Request) (kid : String) (e : CertEntry) (ve : VaultEntry)
    (hwf : req.token.wellFormed = true)
    (hkid : req.token.kid = some kid)
    (hfind : assocFind cs.certCache kid = some (.pos e))
    (hf : certFresh now e = true) (hu : certUsable now e = true)
    (hsig : req.token.signedWith = e.publicKey)
    (hexp : req.token.claims.exp + w.clockSkew < now)
    (hvfind : assocFind cs.vaultCache req.token.claims.vaultId = some (.pos ve))
    (hvf : vaultFresh now ve = true)
    (horg : ve.orgId = req.token.claims.orgId)
    (hvs : ve.vaultState = .active)
    (hos : ve.orgState = .active) :
    (authorize w now cs req).1 = .reject .expired
    ∧ httpStatus (authorize w now cs req).1 = 401 := by
  have hres := resolveCert_hit w now cs kid e hfind hf hu
  have hauth : authorize w now cs req = (.reject .expired, [], cs) := by
    simp [authorize, hwf, hkid, hres, hsig, hexp]
  rw [hauth]
  exact ⟨rfl, rfl⟩

/-- A correctly-signed request whose token expired long ago. -/
def reqExpired : Request :=
  ⟨⟨true, some "k1", "pubA",
    ⟨"https://x", "client:1", "https://api.inferadb.com", -600, -900, "j", "v1", "org1",
     "inferadb.check inferadb.read", "read"⟩⟩, "inferadb.check", "read"⟩

/-- Witness for C5 at the concrete scenario. -/
theorem expired_token_rejected_witness :
    (authorize worldA 100 cacheA reqExpired).1 = .reject .expired
    ∧ httpStatus (authorize worldA 100 cacheA reqExpired).1 = 401 :=
  expired_token_rejected worldA 100 cacheA reqExpired "k1" certA vaultA
    (by decide) (by decide) (by decide) (by decide) (by decide) (by decide)
    (by decide) (by decide) (by decide) (by decide) (by decide) (by decide)

/-- C8: a token without a key identifier is rejected with `MissingKeyId`
(HTTP 401) and issues no upstream call at all; a token with a
never-before-seen unknown key identifier is rejected with
`UnknownOrRevokedKey` (HTTP 401) and no upstream vault/organization call is
made — key-identifier failures short-circuit before any vault/org lookup. -/
theorem keyid_failures_shortcircuit (w : World) (now : Int) (cs : CacheState)
    (req : Request) (hwf : req.token.wellFormed = true) :
    (req.token.kid = none →
      authorize w now cs req = (.reject .missingKeyId, [], cs)
      ∧ httpStatus (authorize w now cs req).1 = 401)
    ∧ (∀ k, req.token.kid = some k →
      assocFind cs.certCache k = none →
      assocFind w.certs k = none →
      (authorize w now cs req).1 = .reject .unknownOrRevokedKey
      ∧ httpStatus (authorize w now cs req).1 = 401
      ∧ ∀ c ∈ (authorize w now cs req).2.1, isVaultCall c = false) := by
  constructor
  · intro hk
    have hauth : authorize w now cs req = (.reject .missingKeyId, [], cs) := by
      simp [authorize, hwf, hk]
    exact ⟨hauth, by rw [hauth]; rfl⟩
  · intro k hk hcache hworld
    have hres : resolveCert w now cs k =
        (none, [.fetchCert k], ⟨(k, .neg now w.negTtl) :: cs.certCache, cs.vaultCache⟩) := by
      simp [resolveCert, fetchCertUpstream, hcache, hworld]
    have hauth : authorize w now cs req =
        (.reject .unknownOrRevokedKey, [.fetchCert k],
         ⟨(k, .neg now w.negTtl) :: cs.certCache, cs.vaultCache⟩) := by
      simp [authorize, hwf, hk, hres]
    rw [hauth]
    refine ⟨rfl, rfl, ?_⟩
    intro c hc
    simp at hc
    rw [hc]
    rfl

/-- A well-formed token that carries no `kid` header. -/
def reqNoKid : Request := ⟨⟨true, none, "pubA", claimsGood⟩, "inferadb.check", "read"⟩

/-- Witness for C8 at the concrete scenario. -/
theorem keyid_failures_shortcircuit_witness :
    authorize worldA 100 cacheA reqNoKid = (.reject .missingKeyId, [], cacheA)
    ∧ httpStatus (authorize worldA 100 cacheA reqNoKid).1 = 401 :=
  (keyid_failures_shortcircuit worldA 100 cacheA reqNoKid (by decide)).1 (by decide)

/-- C1: after a certificate is revoked at the authority, every request
bearing a token signed with it is rejected with `UnknownOrRevokedKey`
(HTTP 401) within the cache's bounded refresh window: as soon as the
connected invalidation stream has applied the event (latency `lat` after
the revocation at `tr`), and in any case from the cached entry's TTL
expiry onwards. -/
theorem revocation_propagation (w : World) (cs : CacheState) (req : Request)
    (k : String) (e : CertEntry) (connected : Bool) (tr lat : Int)
    (hwf : req.token.wellFormed = true)
    (hkid : req.token.kid = some k)
    (hfind : assocFind cs.certCache k = some (.pos e)) :
    (∀ t, connected = true → tr + lat ≤ t →
      (authorize (revokeCertAuthority w k) t (cacheStateAt connected tr lat cs k t) req).1
        = .reject .unknownOrRevokedKey
      ∧ httpStatus
          ((authorize (revokeCertAuthority w k) t (cacheStateAt connected tr lat cs k t) req).1)
        = 401)
    ∧ (∀ t, e.cachedAt + e.ttl ≤ t →
      (authorize (revokeCertAuthority w k) t (cacheStateAt connected tr lat cs k t) req).1
        = .reject .unknownOrRevokedKey
      ∧ httpStatus
          ((authorize (revokeCertAuthority w k) t (cacheStateAt connected tr lat cs k t) req).1)
        = 401) := by
  constructor
  · intro t hc ht
    have happ : cacheStateAt connected tr lat cs k t = applyRevocation cs k := by
      simp [cacheStateAt, hc, ht]
    rw [happ]
    have hres := resolveCert_after_revoke_apply w t cs k e hfind
    have hdec := authorize_reject_unknown (revokeCertAuthority w k) t
      (applyRevocation cs k) req k hwf hkid hres
    exact ⟨hdec, by rw [hdec]; rfl⟩
  · intro t ht
    by_cases hc : connected = true ∧ tr + lat ≤ t
    · have happ : cacheStateAt connected tr lat cs k t = applyRevocation cs k := by
        simp [cacheStateAt, hc.1, hc.2]
      rw [happ]
      have hres := resolveCert_after_revoke_apply w t cs k e hfind
      have hdec := authorize_reject_unknown (revokeCertAuthority w k) t
        (applyRevocation cs k) req k hwf hkid hres
      exact ⟨hdec, by rw [hdec]; rfl⟩
    · have happ : cacheStateAt connected tr lat cs k t = cs := by
        simp [cacheStateAt, hc]
      rw [happ]
      have hstale : ¬ certFresh t e = true := by
        simp [certFresh]
        omega
      have hres := resolveCert_stale_after_revoke w t cs k e hfind hstale
      have hdec := authorize_reject_unknown (revokeCertAuthority w k) t cs req k
        hwf hkid hres
      exact ⟨hdec, by rw [hdec]; rfl⟩

/-- Witness for C1: stream connected, event applied, request at t = 500. -/
theorem revocation_propagation_witness :
    (authorize (revokeCertAuthority worldA "k1") 500
        (cacheStateAt true 0 0 cacheA "k1" 500) reqGood).1
      = .reject .unknownOrRevokedKey
    ∧ httpStatus
        ((authorize (revokeCertAuthority worldA "k1") 500
            (cacheStateAt true 0 0 cacheA "k1" 500) reqGood).1)
      = 401 :=
  (revocation_propagation worldA cacheA reqGood "k1" certA true 0 0
    (by decide) (by decide) (by decide)).1 500 rfl (by decide)

/-- Every arrival leaves the in-flight marker set and registers one more
joiner, issuing no fetch. -/
lemma callerArrives_eq (s : FlightState) :
    callerArrives s = ⟨true, s.joiners + 1, s.fetches⟩ := by
  obtain ⟨p, j, f⟩ := s
  cases p <;> simp [callerArrives]

/-- After at least one arrival the in-flight resolution exists. -/
lemma arriveAll_pending (n : Nat) :
    ∀ s : FlightState, (arriveAll (n + 1) s).pendingOwner = true := by
  induction n with
  | zero =>
    intro s
    show (callerArrives s).pendingOwner = true
    rw [callerArrives_eq]
  | succ m ih =>
    intro s
    show (arriveAll (m + 1) (callerArrives s)).pendingOwner = true
    exact ih (callerArrives s)

/-- Arrivals register joiners one by one. -/
lemma arriveAll_joiners (n : Nat) :
    ∀ s : FlightState, (arriveAll n s).joiners = s.joiners + n := by
  induction n with
  | zero =>
    intro s
    rfl
  | succ m ih =>
    intro s
    show (arriveAll m (callerArrives s)).joiners = s.joiners + (m + 1)
    rw [ih (callerArrives s), callerArrives_eq]
    show s.joiners + 1 + m = s.joiners + (m + 1)
    omega

/-- Arrivals alone never issue a fetch. -/
lemma arriveAll_fetches (n : Nat) :
    ∀ s : FlightState, (arriveAll n s).fetches = s.fetches := by
  induction n with
  | zero =>
    intro s
    rfl
  | succ m ih =>
    intro s
    show (arriveAll m (callerArrives s)).fetches = s.fetches
    rw [ih (callerArrives s), callerArrives_eq]

/-- With a pending in-flight resolution, completion issues exactly one
fetch and hands the same result to every registered joiner. -/
lemma resolveFlight_of_pending (w : World) (now : Int) (kid : String)
    (s : FlightState) (hp : s.pendingOwner = true) :
    resolveFlight w now kid s
      = (⟨false, 0, s.fetches + 1⟩,
         List.replicate s.joiners (fetchCertUpstream w now emptyCache kid).1) := by
  simp [resolveFlight, hp]

/-- C3: for every set of `k ≥ 1` concurrent first-use callers presenting
the same never-before-seen key identifier, the single-flight registry
issues exactly one upstream certificate fetch, and every caller receives
the same resolution result. -/
theorem thundering_herd_single_fetch (w : World) (now : Int) (kid : String)
    (k : Nat) (hk : 0 < k) :
    (resolveFlight w now kid (arriveAll k flightInit)).1.fetches = 1
    ∧ (resolveFlight w now kid (arriveAll k flightInit)).2.length = k
    ∧ ∀ r ∈ (resolveFlight w now kid (arriveAll k flightInit)).2,
        r = (fetchCertUpstream w now emptyCache kid).1 := by
  obtain ⟨n, rfl⟩ : ∃ n, k = n + 1 := ⟨k - 1, by omega⟩
  rw [resolveFlight_of_pending w now kid (arriveAll (n + 1) flightInit)
    (arriveAll_pending n flightInit)]
  refine ⟨?_, ?_, ?_⟩
  · show (arriveAll (n + 1) flightInit).fetches + 1 = 1
    rw [arriveAll_fetches]
    rfl
  · show (List.replicate (arriveAll (n + 1) flightInit).joiners _).length = n + 1
    rw [List.length_replicate, arriveAll_joiners]
    show 0 + (n + 1) = n + 1
    omega
  · intro r hr
    exact List.eq_of_mem_replicate hr

/-- Witness for C3 at three concurrent callers. -/
theorem thundering_herd_single_fetch_witness :
    (resolveFlight worldA 0 "k9" (arriveAll 3 flightInit)).1.fetches = 1
    ∧ (resolveFlight worldA 0 "k9" (arriveAll 3 flightInit)).2.length = 3
    ∧ ∀ r ∈ (resolveFlight worldA 0 "k9" (arriveAll 3 flightInit)).2,
        r = (fetchCertUpstream worldA 0 emptyCache "k9").1 :=
  thundering_herd_single_fetch worldA 0 "k9" 3 (by decide)

/-- C6: immediately after rotating a certificate with a future activation
time, tokens under the old key id keep authenticating (until the old
certificate's own expiry or revocation); tokens under the new key id are
rejected as not-yet-active (HTTP 401) before the activation time; and once
activation passes, the new key id authenticates. -/
theorem rotation_grace_period (w : World) (oldKid newKid newKey : String) (act : Int)
    (oldTok newTok : Token) (rs rr : String) (oldRec : CertRecord)
    (hne : newKid ≠ oldKid)
    (hold : assocFind w.certs oldKid = some oldRec)
    (holdrev : oldRec.revoked = false)
    (ho1 : oldTok.wellFormed = true) (ho2 : oldTok.kid = some oldKid)
    (ho3 : oldTok.signedWith = oldRec.publicKey)
    (hn1 : newTok.wellFormed = true) (hn2 : newTok.kid = some newKid)
    (hn3 : newTok.signedWith = newKey) :
    (∀ t vrec, oldRec.activationTime ≤ t →
      ¬ oldTok.claims.exp + w.clockSkew < t →
      oldTok.claims.aud = w.requiredAudience →
      assocFind w.vaults oldTok.claims.vaultId = some vrec →
      vrec.orgId = oldTok.claims.orgId →
      vrec.vaultState = .active → vrec.orgState = .active →
      hasScope oldTok.claims.scope rs = true →
      roleSufficient oldTok.claims.vaultRole rr = true →
      (authorize (rotateCert w newKid newKey act) t emptyCache ⟨oldTok, rs, rr⟩).1 = .accept)
    ∧ (∀ t, t < act →
      (authorize (rotateCert w newKid newKey act) t emptyCache ⟨newTok, rs, rr⟩).1
        = .reject .unknownOrRevokedKey
      ∧ httpStatus
          ((authorize (rotateCert w newKid newKey act) t emptyCache ⟨newTok, rs, rr⟩).1)
        = 401)
    ∧ (∀ t vrec, act ≤ t →
      ¬ newTok.claims.exp + w.clockSkew < t →
      newTok.claims.aud = w.requiredAudience →
      assocFind w.vaults newTok.claims.vaultId = some vrec →
      vrec.orgId = newTok.claims.orgId →
      vrec.vaultState = .active → vrec.orgState = .active →
      hasScope newTok.claims.scope rs = true →
      roleSufficient newTok.claims.vaultRole rr = true →
      (authorize (rotateCert w newKid newKey act) t emptyCache ⟨newTok, rs, rr⟩).1 = .accept) := by
  have hcerts : (rotateCert w newKid newKey act).certs
      = (newKid, ⟨newKey, act, false⟩) :: w.certs := rfl
  have holdFind : assocFind (rotateCert w newKid newKey act).certs oldKid = some oldRec := by
    rw [hcerts]
    show (if newKid = oldKid then some (⟨newKey, act, false⟩ : CertRecord)
          else assocFind w.certs oldKid) = some oldRec
    rw [if_neg hne, hold]
  have hnewFind : assocFind (rotateCert w newKid newKey act).certs newKid
      = some ⟨newKey, act, false⟩ := by
    rw [hcerts]
    show (if newKid = newKid then some (⟨newKey, act, false⟩ : CertRecord)
          else assocFind w.certs newKid) = some ⟨newKey, act, false⟩
    rw [if_pos rfl]
  refine ⟨?_, ?_, ?_⟩
  · intro t vrec hact hexp haud hv horg hvs hos hsc hrole
    exact authorize_accept_cold (rotateCert w newKid newKey act) t ⟨oldTok, rs, rr⟩
      oldKid oldRec vrec ho1 ho2 holdFind holdrev hact ho3 hexp haud hv horg hvs hos hsc hrole
  · intro t ht
    have hnotact : ¬ ((act : Int) ≤ t) := by omega
    have hres : (resolveCert (rotateCert w newKid newKey act) t emptyCache newKid).1 = none := by
      simp [resolveCert, emptyCache, assocFind, fetchCertUpstream, hnewFind,
        certUsable, hnotact]
    have hdec := authorize_reject_unknown (rotateCert w newKid newKey act) t
      emptyCache ⟨newTok, rs, rr⟩ newKid hn1 hn2 hres
    exact ⟨hdec, by rw [hdec]; rfl⟩
  · intro t vrec hact hexp haud hv horg hvs hos hsc hrole
    exact authorize_accept_cold (rotateCert w newKid newKey act) t ⟨newTok, rs, rr⟩
      newKid ⟨newKey, act, false⟩ vrec hn1 hn2 hnewFind rfl hact hn3 hexp haud hv horg
      hvs hos hsc hrole

/-- The token a client would sign under the rotated (not yet active) key. -/
def tokenNewB : Token := ⟨true, some "k2", "pubB", claimsGood⟩

/-- Witness for C6: during the grace window the rotated key id is
rejected as not-yet-active. -/
theorem rotation_grace_period_witness :
    (authorize (rotateCert worldA "k2" "pubB" 1000) 100 emptyCache
        ⟨tokenNewB, "inferadb.check", "read"⟩).1 = .reject .unknownOrRevokedKey
    ∧ httpStatus
        ((authorize (rotateCert worldA "k2" "pubB" 1000) 100 emptyCache
            ⟨tokenNewB, "inferadb.check", "read"⟩).1) = 401 :=
  (rotation_grace_period worldA "k1" "k2" "pubB" 1000 tokenGood tokenNewB
    "inferadb.check" "read" ⟨"pubA", 0, false⟩ (by decide) (by decide) rfl
    rfl rfl rfl rfl rfl rfl).2.1 100 (by decide)

end InferaDB
